import Mathlib

set_option maxRecDepth 100000
set_option maxHeartbeats 1000000

/-!
A shallow embedding of the RTF embedded-object extractor of
`libclamav/rtf.c`, together with theorems settling the specification
claims about it.

Bytes are modelled as `Nat` (values 0..255).  Machine counters of type
`size_t` that can only grow within checked bounds are modelled as `Nat`;
the one counter that the source decrements unconditionally
(`stack->elements`) is modelled with explicit arithmetic modulo `2 ^ 64`.
The signed 64-bit control-word parameter is modelled as `Int` together
with the source's explicit bound checks against `INT64_MAX`.

Host collaborators (the scan context, temp files, the downstream
scanners, `cli_unlink`) are modelled by an explicit environment
`ScanEnv`; invocations of the downstream scanners are recorded as
`ScanEvent`s carrying the temp-file contents at the moment of the call.
Allocation (`cli_malloc`, `cli_realloc2`, `cli_gentempfd`) is modelled as
always succeeding, and `cli_writen` as writing all bytes; the claims under
study do not exercise allocation- or write-failure paths.
-/

/-- Result codes (`clamav.h` is outside `src/`; only equality with
`CL_CLEAN` and the identity of error codes matters to the modelled code,
so the codes are an enumeration; `CL_VIRUS` stands for any non-clean
scanner verdict). -/
inductive cl_error where
  | CL_CLEAN
  | CL_VIRUS
  | CL_EMEM
  | CL_EWRITE
  | CL_EUNLINK
  | CL_ETMPDIR
  deriving DecidableEq

open cl_error

/-- An invocation of a downstream scanner, carrying the bytes of the
temp file handed to it. -/
inductive ScanEvent where
  | ole10 (contents : List Nat)
  | generic (contents : List Nat)
  deriving DecidableEq

/-- Environment supplied by the host scan engine (`cli_ctx` and the
file-system primitives of `others.h`, which are outside `src/`). -/
structure ScanEnv where
  keeptmp : Bool
  unlinkFails : Bool
  scanOle10 : List Nat → cl_error
  scanGeneric : List Nat → cl_error

/-- ASCII `isxdigit` (the C locale classification used by `ctype.h`). -/
def c_isxdigit (b : Nat) : Bool :=
  (decide (48 ≤ b) && decide (b ≤ 57)) ||
  (decide (65 ≤ b) && decide (b ≤ 70)) ||
  (decide (97 ≤ b) && decide (b ≤ 102))

/-- ASCII `isalpha`. -/
def c_isalpha (b : Nat) : Bool :=
  (decide (65 ≤ b) && decide (b ≤ 90)) || (decide (97 ≤ b) && decide (b ≤ 122))

/-- ASCII `isdigit`. -/
def c_isdigit (b : Nat) : Bool :=
  decide (48 ≤ b) && decide (b ≤ 57)

/-- ASCII `isspace`: space, \t, \n, \v, \f, \r. -/
def c_isspace (b : Nat) : Bool :=
  decide (b = 32) || (decide (9 ≤ b) && decide (b ≤ 13))

/-- The 256-entry nibble table of rtf.c (`hextable`): digits and hex
letters map to their value, every other byte maps to 0. -/
def hextable (b : Nat) : Nat :=
  if 48 ≤ b ∧ b ≤ 57 then b - 48
  else if 65 ≤ b ∧ b ≤ 70 then b - 55
  else if 97 ≤ b ∧ b ≤ 102 then b - 87
  else 0

/-- The hex decoder of `rtf_object_process` (rtf.c lines 277-300): scan
the chunk, treat each hex digit as a high nibble, skip interleaved
non-hex bytes, and pair it with the next hex digit; a high nibble left
without a partner at the end of the chunk is carried (`data->partial`,
`data->has_partial`, here fused into one `Option Nat`). -/
def hex_decode_go (p : Option Nat) : List Nat → List Nat × Option Nat
  | [] => ([], p)
  | c :: rest =>
    if c_isxdigit c then
      match p with
      | none => hex_decode_go (some (hextable c <<< 4)) rest
      | some hi =>
        ((hi ||| hextable c) :: (hex_decode_go none rest).1,
         (hex_decode_go none rest).2)
    else hex_decode_go p rest

/-- Decoded output of a sequence of chunks fed to successive
`rtf_object_process` calls, threading the carried nibble between calls. -/
def decode_chunks (p : Option Nat) : List (List Nat) → List Nat
  | [] => []
  | ch :: rest =>
    (hex_decode_go p ch).1 ++ decode_chunks (hex_decode_go p ch).2 rest

/-- Reference decoder, following the spec's words: delete all non-hex
characters and pair the remaining hex digits high-nibble first (a
trailing unpaired digit produces no byte). -/
def pair_nibbles : List Nat → List Nat
  | a :: b :: rest => (hextable a * 16 + hextable b) :: pair_nibbles rest
  | _ => []

/-- States of the objdata state machine (rtf.c `enum rtf_objdata_state`). -/
inductive rtf_objdata_state where
  | WAIT_MAGIC
  | WAIT_DESC_LEN
  | WAIT_DESC
  | WAIT_ZERO
  | WAIT_DATA_SIZE
  | DUMP_DATA
  | DUMP_DISCARD
  deriving DecidableEq

open rtf_objdata_state

/-- `struct rtf_object_data`.  `name`/`fd` model the temp-file path
pointer and descriptor (`fd = -1` when closed, `1` when open);
`fileBytes` models the bytes written to the open temp file;
`pendingNibble` fuses `partial`/`has_partial`. -/
structure rtf_object_data where
  name : Bool
  fd : Int
  pendingNibble : Option Nat
  internal_state : rtf_objdata_state
  desc_name : Option (List Nat)
  desc_len : Nat
  bread : Nat
  fileBytes : List Nat
  deriving DecidableEq

/-- `rtf_object_begin` (rtf.c lines 219-238): the freshly allocated
callback data. -/
def rtf_object_begin_data : rtf_object_data :=
  { name := false
    fd := -1
    pendingNibble := none
    internal_state := WAIT_MAGIC
    desc_name := none
    desc_len := 0
    bread := 0
    fileBytes := [] }

/-- `decode_and_scan` (rtf.c lines 240-263).  The scan-event list records
which downstream scanner ran and on what file contents.  Note the source
assigns `ret = CL_EUNLINK` on unlink failure after the scanner already
set `ret`, so an unlink failure overwrites the scanner's verdict. -/
def decode_and_scan (env : ScanEnv) (d : rtf_object_data) :
    cl_error × rtf_object_data × List ScanEvent :=
  let scanned : cl_error × List ScanEvent :=
    if d.bread = 1 ∧ d.fd > 0 then
      (env.scanOle10 d.fileBytes, [ScanEvent.ole10 d.fileBytes])
    else if d.fd > 0 then
      (env.scanGeneric d.fileBytes, [ScanEvent.generic d.fileBytes])
    else (CL_CLEAN, [])
  let d1 := { d with fd := -1 }
  let step2 : cl_error × rtf_object_data :=
    if d1.name then
      (if ¬ env.keeptmp ∧ env.unlinkFails then CL_EUNLINK else scanned.1,
       { d1 with name := false })
    else (scanned.1, d1)
  (if step2.1 ≠ CL_CLEAN then step2.1 else CL_CLEAN, step2.2, scanned.2)

/-- `cli_writeint32`: the 4-byte little-endian encoding written before an
OLE10Native payload. -/
def cli_writeint32 (n : Nat) : List Nat :=
  [n % 256, n / 256 % 256, n / 65536 % 256, n / 16777216 % 256]

/-- Little-endian accumulation loop of `WAIT_DESC_LEN`/`WAIT_DATA_SIZE`:
`desc_len |= out_data[i] << (bread * 8)`. -/
def le_accum (acc : Nat) (bread : Nat) : List Nat → Nat
  | [] => acc
  | b :: rest => le_accum (acc ||| (b <<< (bread * 8))) (bread + 1) rest

/-- Slice of the decoded buffer: `out_data[0..n)` when `out_data` points
at offset `pos`. -/
def buf_slice (l : List Nat) (pos n : Nat) : List Nat :=
  (l.drop pos).take n

/-- Read `out_data[i]` when `out_data` points at offset `pos` of the
decoded buffer.  A read past the decoded bytes reads the uninitialised
tail of the C stack buffer; it is modelled as 0 (the only such read is
`out_data[1]` in `DUMP_DATA`, see the theorems' hypotheses). -/
def buf_at (l : List Nat) (pos : Nat) : Nat :=
  l.getD pos 0

/-- The `while (out_data && out_cnt)` loop of `rtf_object_process`
(rtf.c lines 303-439), as a fuelled step function.  `buf` is the decoded
scratch buffer, `pos` the offset of `out_data` into it and `cnt` the
value of `out_cnt`; the source keeps these two in sync except where noted
below.  `none` models non-termination of the C loop; the caller passes
more fuel than any terminating execution can use. -/
def rtf_process_loop (env : ScanEnv) :
    Nat → rtf_object_data → List Nat → Nat → Nat → List ScanEvent →
    Option (cl_error × rtf_object_data × List ScanEvent)
  | 0, _, _, _, _, _ => none
  | fuel + 1, d, buf, pos, cnt, ev =>
    if cnt = 0 then some (CL_CLEAN, d, ev)
    else
      match d.internal_state with
      | WAIT_MAGIC =>
        -- lines 305-318: advance through the 8 magic bytes (mismatches
        -- are only logged); out_data is advanced only on the transition
        let i := min cnt (8 - d.bread)
        let d1 := { d with bread := d.bread + i }
        if d1.bread = 8 then
          rtf_process_loop env fuel
            { d1 with bread := 0, internal_state := WAIT_DESC_LEN }
            buf (pos + i) (cnt - i) ev
        else
          rtf_process_loop env fuel d1 buf pos (cnt - i) ev
      | WAIT_DESC_LEN =>
        -- lines 319-341
        let d0 := if d.bread = 0 then { d with desc_len := 0 } else d
        let i := min cnt (4 - d0.bread)
        let d1 := { d0 with
                    desc_len := le_accum d0.desc_len d0.bread (buf_slice buf pos i)
                    bread := d0.bread + i }
        if d1.bread = 4 then
          -- cli_malloc of desc_name (min(desc_len,64)+1 bytes) succeeds
          rtf_process_loop env fuel
            { d1 with bread := 0, desc_name := some [],
                      internal_state := WAIT_DESC }
            buf (pos + i) (cnt - i) ev
        else
          rtf_process_loop env fuel d1 buf pos (cnt - i) ev
      | WAIT_DESC =>
        -- lines 342-368; note that when bread < desc_len fails to catch
        -- up (desc_len > 64) the source subtracts from out_cnt without
        -- advancing out_data and without changing internal_state
        let i := min cnt (min d.desc_len 64 - d.bread)
        let d1 := { d with
                    desc_name := d.desc_name.map (· ++ buf_slice buf pos i)
                    bread := d.bread + i }
        let cnt1 := cnt - i
        let pos1 := pos + i
        if d1.bread < d1.desc_len ∧ d1.bread < 64 then
          some (CL_CLEAN, d1, ev)
        else
          if d1.desc_len - d1.bread > cnt1 then
            some (CL_CLEAN, { d1 with desc_len := d1.desc_len - cnt1 }, ev)
          else
            let cnt2 := cnt1 - (d1.desc_len - d1.bread)
            if d1.bread ≥ d1.desc_len then
              rtf_process_loop env fuel
                { d1 with bread := 0, desc_name := none,
                          internal_state := WAIT_ZERO }
                buf (pos1 + (d1.desc_len - d1.bread)) cnt2 ev
            else
              rtf_process_loop env fuel d1 buf pos1 cnt2 ev
      | WAIT_ZERO =>
        -- lines 369-384; the source zeroes out_cnt first and then adds
        -- the zeroed value to bread, so bread does not advance in the
        -- short-chunk branch
        let st :=
          if cnt < 8 - d.bread then ((0 : Nat), d)
          else (cnt - (8 - d.bread), { d with bread := 8 })
        if st.2.bread = 8 then
          rtf_process_loop env fuel
            { st.2 with bread := 0, internal_state := WAIT_DATA_SIZE }
            buf (pos + 8) st.1 ev
        else
          rtf_process_loop env fuel st.2 buf pos st.1 ev
      | WAIT_DATA_SIZE =>
        -- lines 386-403
        let d0 := if d.bread = 0 then { d with desc_len := 0 } else d
        let i := min cnt (4 - d0.bread)
        let d1 := { d0 with
                    desc_len := le_accum d0.desc_len d0.bread (buf_slice buf pos i)
                    bread := d0.bread + i }
        if d1.bread = 4 then
          -- cli_gentempfd succeeds: fresh path and open fd
          rtf_process_loop env fuel
            { d1 with bread := 0, name := true, fd := 1, fileBytes := [],
                      internal_state := DUMP_DATA }
            buf (pos + i) (cnt - i) ev
        else
          rtf_process_loop env fuel d1 buf pos (cnt - i) ev
      | DUMP_DATA =>
        -- lines 404-433; bread doubles as the flavour flag: 1 means
        -- OLE10Native (4-byte little-endian length prefix written),
        -- 2 means OLE2 (payload written as-is)
        let out_want := min cnt d.desc_len
        let d1 :=
          if d.bread = 0 then
            if buf_at buf pos ≠ 0xd0 ∨ buf_at buf (pos + 1) ≠ 0xcf then
              { d with bread := 1,
                       fileBytes := d.fileBytes ++ cli_writeint32 d.desc_len }
            else { d with bread := 2 }
          else d
        let d2 := { d1 with
                    desc_len := d1.desc_len - out_want
                    fileBytes := d1.fileBytes ++ buf_slice buf pos out_want }
        let pos1 := pos + out_want
        let cnt1 := cnt - out_want
        if d2.desc_len = 0 then
          let r := decode_and_scan env d2
          if r.1 ≠ CL_CLEAN then some (r.1, r.2.1, ev ++ r.2.2)
          else
            rtf_process_loop env fuel
              { r.2.1 with bread := 0, internal_state := WAIT_MAGIC }
              buf pos1 cnt1 (ev ++ r.2.2)
        else
          rtf_process_loop env fuel d2 buf pos1 cnt1 ev
      | DUMP_DISCARD =>
        -- lines 434-437: sink
        rtf_process_loop env fuel d buf pos 0 ev

/-- `rtf_object_process` (rtf.c lines 265-441): hex-decode the chunk
(threading the carried nibble) and feed the decoded bytes through the
object state machine. -/
def rtf_object_process (env : ScanEnv) (d : rtf_object_data)
    (input : List Nat) :
    Option (cl_error × rtf_object_data × List ScanEvent) :=
  if input = [] then some (CL_CLEAN, d, [])
  else
    let dec := hex_decode_go d.pendingNibble input
    rtf_process_loop env (8 * (dec.1.length + 2))
      { d with pendingNibble := dec.2 } dec.1 0 dec.1.length []

/-- States of the lexical parser (rtf.c `enum parse_state`). -/
inductive parse_state_t where
  | PARSE_MAIN
  | PARSE_CONTROL_
  | PARSE_CONTROL_WORD
  | PARSE_CONTROL_SYMBOL
  | PARSE_CONTROL_WORD_PARAM
  | PARSE_INTERPRET_CONTROLWORD
  deriving DecidableEq

open parse_state_t

/-- `INT64_MAX`. -/
def INT64_MAX : Int := 9223372036854775807

/-- The action codes of `enum rtf_action` (RTF_OBJECT = 0,
RTF_OBJECT_DATA = 1, mirroring the C enum values). -/
def RTF_OBJECT : Nat := 0

/-- RTF_OBJECT_DATA enum value. -/
def RTF_OBJECT_DATA : Nat := 1

/-- `struct rtf_state`.  The three callback pointers are each either
NULL or the corresponding `rtf_object_*` function, so they are modelled
as booleans; `controlword` is the list of the `controlword_cnt`
accumulated bytes. -/
structure rtf_state where
  cb_begin : Bool
  cb_process : Bool
  cb_end : Bool
  cb_data : Option rtf_object_data
  default_elements : Nat
  controlword_param : Int
  parse_state : parse_state_t
  controlword_param_sign : Int
  encounteredTopLevel : Nat
  controlword : List Nat
  deriving DecidableEq

/-- `base_state` (rtf.c line 75). -/
def base_state : rtf_state :=
  { cb_begin := false
    cb_process := false
    cb_end := false
    cb_data := none
    default_elements := 0
    controlword_param := 0
    parse_state := PARSE_MAIN
    controlword_param_sign := 0
    encounteredTopLevel := 0
    controlword := [] }

/-- `compare_state(state, &base_state)` (rtf.c lines 146-154): only the
parse state, the top-level bitset and the callback triple plus data are
compared. -/
def compare_base (st : rtf_state) : Bool :=
  decide (st.parse_state = PARSE_MAIN) &&
  decide (st.encounteredTopLevel = 0) &&
  !st.cb_begin && !st.cb_process && !st.cb_end && decide (st.cb_data = none)

/-- The control words of `rtf_action_mapping` (rtf.c lines 86-92):
"object" with no terminator, "objdata " including a trailing space. -/
def object_key : List Nat := [111, 98, 106, 101, 99, 116]

/-- The bytes of the table key "objdata " (trailing space included). -/
def objdata_key : List Nat := [111, 98, 106, 100, 97, 116, 97, 32]

/-- Modelled from the spec: `tableCreate`/`tableInsert`/`tableFind` come
from `libclamav/table.c`, which is not under `src/`; per spec section 4.2
the table is an exact string-to-integer map over the two entries of
`rtf_action_mapping`, returning the action code or "not found". -/
def tableFind (w : List Nat) : Option Nat :=
  if w = object_key then some RTF_OBJECT
  else if w = objdata_key then some RTF_OBJECT_DATA
  else none

/-- `rtf_action` (rtf.c lines 461-475): RTF_OBJECT sets its bit in
`encounteredTopLevel`; RTF_OBJECT_DATA binds the extractor callback
triple only when that bit is already set. -/
def rtf_action (st : rtf_state) (action : Nat) : rtf_state :=
  if action = RTF_OBJECT then
    { st with encounteredTopLevel := st.encounteredTopLevel ||| (1 <<< RTF_OBJECT) }
  else if action = RTF_OBJECT_DATA then
    if st.encounteredTopLevel &&& (1 <<< RTF_OBJECT) ≠ 0 then
      { st with cb_begin := true, cb_process := true, cb_end := true }
    else st
  else st

/-- Outcome of the top-level driver. -/
inductive ScanOutcome where
  | running
  | done (rc : cl_error)
  | diverged
  deriving DecidableEq

/-- Configuration of `cli_scanrtf`: the remaining bytes of the current
chunk, the chunks still to be fetched, the active frame, the stored
stack frames (head = top of stack), the `size_t` counters of
`struct stack`, and instrumentation (`pushes`/`pops` count the calls to
`push_state`/`pop_state`, `warnCount` the emissions of the empty-pop
warning, `events` the downstream-scanner invocations). -/
structure ScanConfig where
  cur : List Nat
  chunks : List (List Nat)
  st : rtf_state
  frames : List rtf_state
  elements : Nat
  warned : Bool
  warnCount : Nat
  pushes : Nat
  pops : Nat
  events : List ScanEvent
  outcome : ScanOutcome
  deriving DecidableEq

/-- Modulus of the `size_t` counter `stack->elements`. -/
def UINT64_MOD : Nat := 18446744073709551616

/-- `push_state` (rtf.c lines 156-185). -/
def push_state (c : ScanConfig) : ScanConfig :=
  let c1 := { c with elements := (c.elements + 1) % UINT64_MOD,
                     pushes := c.pushes + 1 }
  if compare_base c1.st then
    { c1 with st := { c1.st with default_elements := c1.st.default_elements + 1 } }
  else
    { c1 with
      frames := c1.st :: c1.frames
      st := { base_state with
              encounteredTopLevel := c1.st.encounteredTopLevel
              default_elements := 0 } }

/-- `pop_state` (rtf.c lines 187-208): `stack->elements--` happens
unconditionally on the `size_t` counter, so popping with `elements = 0`
wraps to `2 ^ 64 - 1`. -/
def pop_state (c : ScanConfig) : ScanConfig :=
  let c1 := { c with elements := (c.elements + (UINT64_MOD - 1)) % UINT64_MOD,
                     pops := c.pops + 1 }
  if c1.st.default_elements ≠ 0 then
    { c1 with st := { base_state with
                      default_elements := c1.st.default_elements - 1
                      encounteredTopLevel := c1.st.encounteredTopLevel } }
  else
    match c1.frames with
    | [] =>
      let c2 := if ¬ c1.warned then
                  { c1 with warned := true, warnCount := c1.warnCount + 1 }
                else c1
      { c2 with st := base_state }
    | f :: rest => { c1 with st := f, frames := rest }

/-- `rtf_object_end` (rtf.c lines 443-459), acting on the frame that owns
the callback data. -/
def rtf_object_end (env : ScanEnv) (st : rtf_state) :
    cl_error × rtf_state × List ScanEvent :=
  match st.cb_data with
  | none => (CL_CLEAN, st, [])
  | some d =>
    if d.fd > 0 then
      let r := decode_and_scan env d
      (r.1, { st with cb_data := none }, r.2.2)
    else (CL_CLEAN, { st with cb_data := none }, [])

/-- One iteration of `cleanup_stack` (rtf.c lines 477-486): pop, then run
the end callback of the restored frame when bound (result ignored). -/
def cleanup_iter (env : ScanEnv) (c : ScanConfig) : ScanConfig :=
  let c1 := pop_state c
  if c1.st.cb_data.isSome ∧ c1.st.cb_end then
    let r := rtf_object_end env c1.st
    { c1 with st := r.2.1, events := c1.events ++ r.2.2 }
  else c1

/-- Fuel bound for `cleanup_stack`: every iteration either discharges one
compressed default or pops one stored frame. -/
def cleanup_fuel (c : ScanConfig) : Nat :=
  c.st.default_elements + c.frames.length +
    (c.frames.map (·.default_elements)).sum + 1

/-- The `while (stack->stack_cnt)` loop of `cleanup_stack`. -/
def cleanup_go (env : ScanEnv) : Nat → ScanConfig → ScanConfig
  | 0, c => c
  | fuel + 1, c =>
    if c.frames = [] then c else cleanup_go env fuel (cleanup_iter env c)

/-- `cleanup_stack` (rtf.c lines 477-486). -/
def cleanup_stack (env : ScanEnv) (c : ScanConfig) : ScanConfig :=
  cleanup_go env (cleanup_fuel c) c

/-- The `SCAN_CLEANUP` macro followed by `return rc` (rtf.c lines
488-496): run the active frame's end callback when data and end are both
bound (result ignored), drain the stack, and finish with `rc`. -/
def scan_finish (env : ScanEnv) (rc : cl_error) (c : ScanConfig) : ScanConfig :=
  let c1 :=
    if c.st.cb_data.isSome ∧ c.st.cb_end then
      let r := rtf_object_end env c.st
      { c with st := r.2.1, events := c.events ++ r.2.2 }
    else c
  { cleanup_stack env c1 with outcome := ScanOutcome.done rc }

/-- Length of the run of text delivered to the process callback: the C
computes `use` as the first index `i ≥ 1` whose byte is `{`, `}` or
`\`, or the whole remainder (rtf.c lines 582-590).  `run_scan_len`
counts the leading non-special bytes of the tail. -/
def run_scan_len : List Nat → Nat
  | [] => 0
  | b :: bs => if b = 123 ∨ b = 125 ∨ b = 92 then 0 else 1 + run_scan_len bs

/-- The `PARSE_MAIN` case of the driver (rtf.c lines 556-608). -/
def step_main (env : ScanEnv) (c : ScanConfig) (b : Nat) (bs : List Nat) :
    ScanConfig :=
  if b = 123 then push_state { c with cur := bs }
  else if b = 125 then
    if c.st.cb_data.isSome ∧ c.st.cb_end then
      let r := rtf_object_end env c.st
      let c1 := { c with cur := bs, st := r.2.1, events := c.events ++ r.2.2 }
      if r.1 = CL_CLEAN then pop_state c1 else scan_finish env r.1 c1
    else pop_state { c with cur := bs }
  else if b = 92 then
    { c with cur := bs, st := { c.st with parse_state := PARSE_CONTROL_ } }
  else
    let use := 1 + run_scan_len bs
    if c.st.cb_begin then
      let d0 := match c.st.cb_data with
                | some d => d
                | none => rtf_object_begin_data
      match rtf_object_process env d0 ((b :: bs).take use) with
      | none => { c with st := { c.st with cb_data := some d0 },
                         outcome := ScanOutcome.diverged }
      | some (rc, d1, evs) =>
        let c1 := { c with st := { c.st with cb_data := some d1 },
                           events := c.events ++ evs }
        if rc = CL_CLEAN then { c1 with cur := (b :: bs).drop use }
        else
          let c2 :=
            if c1.st.cb_end then
              let r := rtf_object_end env c1.st
              { c1 with st := r.2.1, events := c1.events ++ r.2.2 }
            else c1
          scan_finish env rc c2
    else { c with cur := (b :: bs).drop use }

/-- The `PARSE_CONTROL_` case (rtf.c lines 609-615): peek without
consuming. -/
def step_control (c : ScanConfig) (b : Nat) : ScanConfig :=
  if c_isalpha b then
    { c with st := { c.st with parse_state := PARSE_CONTROL_WORD,
                               controlword := [] } }
  else
    { c with st := { c.st with parse_state := PARSE_CONTROL_SYMBOL } }

/-- The `PARSE_CONTROL_WORD` case (rtf.c lines 620-643). -/
def step_control_word (c : ScanConfig) (b : Nat) (bs : List Nat) : ScanConfig :=
  if c.st.controlword.length = 32 then
    { c with st := { c.st with parse_state := PARSE_MAIN } }
  else if c_isalpha b then
    { c with cur := bs, st := { c.st with controlword := c.st.controlword ++ [b] } }
  else if c_isspace b then
    { c with cur := bs,
             st := { c.st with controlword := c.st.controlword ++ [b],
                               parse_state := PARSE_INTERPRET_CONTROLWORD } }
  else if c_isdigit b then
    { c with st := { c.st with parse_state := PARSE_CONTROL_WORD_PARAM,
                               controlword_param := 0,
                               controlword_param_sign := 1 } }
  else if b = 45 then
    { c with cur := bs,
             st := { c.st with parse_state := PARSE_CONTROL_WORD_PARAM,
                               controlword_param := 0,
                               controlword_param_sign := -1 } }
  else
    { c with st := { c.st with parse_state := PARSE_INTERPRET_CONTROLWORD } }

/-- The `PARSE_CONTROL_WORD_PARAM` case (rtf.c lines 644-661), including
the INT64 overflow guard. -/
def step_control_word_param (c : ScanConfig) (b : Nat) (bs : List Nat) :
    ScanConfig :=
  if c_isdigit b then
    if c.st.controlword_param > INT64_MAX / 10 ∨
       c.st.controlword_param * 10 > INT64_MAX - ((b : Int) - 48) then
      { c with st := { c.st with parse_state := PARSE_MAIN } }
    else
      { c with cur := bs,
               st := { c.st with
                       controlword_param :=
                         c.st.controlword_param * 10 + ((b : Int) - 48) } }
  else if c_isalpha b then
    { c with cur := bs }
  else
    { c with st := { c.st with
                     controlword_param :=
                       if c.st.controlword_param_sign < 0 then
                         -c.st.controlword_param
                       else c.st.controlword_param
                     parse_state := PARSE_INTERPRET_CONTROLWORD } }

/-- The `PARSE_INTERPRET_CONTROLWORD` case (rtf.c lines 662-678): look
the accumulated word up; on a hit, first end a dangling extractor
(clearing begin/end/data but, like the source, not the process pointer),
then dispatch the action; always return to `PARSE_MAIN` without
consuming. -/
def step_interpret (env : ScanEnv) (c : ScanConfig) : ScanConfig :=
  match tableFind c.st.controlword with
  | some act =>
    let c1 :=
      if c.st.cb_data.isSome ∧ c.st.cb_end then
        let r := rtf_object_end env c.st
        { c with
          st := { r.2.1 with cb_begin := false, cb_end := false, cb_data := none }
          events := c.events ++ r.2.2 }
      else c
    { c1 with st := { rtf_action c1.st act with parse_state := PARSE_MAIN } }
  | none => { c with st := { c.st with parse_state := PARSE_MAIN } }

/-- One execution of the driver's inner `switch` (or one chunk fetch /
the EOF cleanup) of `cli_scanrtf` (rtf.c lines 498-685). -/
def cli_scanrtf_step (env : ScanEnv) (c : ScanConfig) : ScanConfig :=
  match c.outcome with
  | ScanOutcome.done _ => c
  | ScanOutcome.diverged => c
  | ScanOutcome.running =>
    match c.cur with
    | [] =>
      match c.chunks with
      | [] => scan_finish env CL_CLEAN c
      | ch :: rest =>
        if ch = [] then scan_finish env CL_CLEAN { c with chunks := rest }
        else { c with cur := ch, chunks := rest }
    | b :: bs =>
      match c.st.parse_state with
      | PARSE_MAIN => step_main env c b bs
      | PARSE_CONTROL_ => step_control c b
      | PARSE_CONTROL_SYMBOL =>
        { c with cur := bs, st := { c.st with parse_state := PARSE_MAIN } }
      | PARSE_CONTROL_WORD => step_control_word c b bs
      | PARSE_CONTROL_WORD_PARAM => step_control_word_param c b bs
      | PARSE_INTERPRET_CONTROLWORD => step_interpret env c

/-- Initial configuration of `cli_scanrtf` on a sequence of chunks
returned by the fmap. -/
def cli_scanrtf_init (chunks : List (List Nat)) : ScanConfig :=
  { cur := []
    chunks := chunks
    st := base_state
    frames := []
    elements := 0
    warned := false
    warnCount := 0
    pushes := 0
    pops := 0
    events := []
    outcome := ScanOutcome.running }

/-- `n` steps of the driver. -/
def cli_scanrtf_run (env : ScanEnv) (chunks : List (List Nat)) (n : Nat) :
    ScanConfig :=
  (cli_scanrtf_step env)^[n] (cli_scanrtf_init chunks)

/-- A benign host environment: temp files are not kept, unlink succeeds,
both downstream scanners report clean. -/
def env0 : ScanEnv :=
  { keeptmp := false
    unlinkFails := false
    scanOle10 := fun _ => CL_CLEAN
    scanGeneric := fun _ => CL_CLEAN }

/-- The hex payload of spec scenario 2, with the runs of hex digits
concatenated on the wire: the ASCII characters of
"0105000002000000" "04000000" "74657374" "0000000000000000"
"02000000" "d0cf". -/
def c1_hex : List Nat :=
  [48, 49, 48, 53, 48, 48, 48, 48, 48, 50, 48, 48, 48, 48, 48, 48,
   48, 52, 48, 48, 48, 48, 48, 48,
   55, 52, 54, 53, 55, 51, 55, 52,
   48, 48, 48, 48, 48, 48, 48, 48, 48, 48, 48, 48, 48, 48, 48, 48,
   48, 50, 48, 48, 48, 48, 48, 48,
   100, 48, 99, 102]

/-- Spec scenario 2 exactly as written, the control words delimited as
written: the bytes of
`\x7b\rtf1 \x7b\object \objdata <hex>\x7d\x7d`
(an opening brace, backslash r t f 1, space, opening brace, backslash
o b j e c t, space, backslash o b j d a t a, space, the hex characters,
two closing braces). -/
def c1_inputA : List Nat :=
  [123, 92, 114, 116, 102, 49, 32, 123, 92, 111, 98, 106, 101, 99, 116, 32,
   92, 111, 98, 106, 100, 97, 116, 97, 32] ++ c1_hex ++ [125, 125]

/-- The same document with `\object` delimited by the backslash of
`\objdata` instead of a space (the one delimiter change that lets the
action-table lookup succeed). -/
def c1_inputB : List Nat :=
  [123, 92, 114, 116, 102, 49, 32, 123, 92, 111, 98, 106, 101, 99, 116,
   92, 111, 98, 106, 100, 97, 116, 97, 32] ++ c1_hex ++ [125, 125]

/-- The bytes of `\x7b\object\x7d\objdata 4`: a complete, balanced
`\object` group followed, outside any group, by `\objdata` and one hex
character. -/
def c4_input : List Nat :=
  [123, 92, 111, 98, 106, 101, 99, 116, 125,
   92, 111, 98, 106, 100, 97, 116, 97, 32, 52]

/-- Hex character of a nibble (lowercase), used to build test inputs. -/
def nib_hex_char (n : Nat) : Nat := if n < 10 then 48 + n else 87 + n

/-- ASCII-hex encoding of a byte list (two characters per byte), used to
build test inputs for the extractor. -/
def to_hex_chars (l : List Nat) : List Nat :=
  l.flatMap (fun b => [nib_hex_char (b / 16), nib_hex_char (b % 16)])

/-- An objdata stream whose description length is 70 (greater than 64):
magic, desc_len 70, seventy description bytes 0x41, the 8-byte zero
field, data size 2, payload D0 CF — hex-encoded in one chunk. -/
def c6_input : List Nat :=
  to_hex_chars ([1, 5, 0, 0, 2, 0, 0, 0] ++ [70, 0, 0, 0] ++
    List.replicate 70 65 ++ List.replicate 8 0 ++ [2, 0, 0, 0] ++ [208, 207])

/-- First chunk for the WAIT_ZERO split: magic, desc_len 2,
description "AB", and only the first 3 bytes of the 8-byte zero field,
hex-encoded. -/
def c7_chunk1 : List Nat :=
  to_hex_chars ([1, 5, 0, 0, 2, 0, 0, 0] ++ [2, 0, 0, 0] ++ [65, 66] ++
    [0, 0, 0])

/-- Second chunk: the remaining 5 bytes of the zero field, data size 2,
payload 0x41 0x42, hex-encoded. -/
def c7_chunk2 : List Nat :=
  to_hex_chars ([0, 0, 0, 0, 0] ++ [2, 0, 0, 0] ++ [65, 66])

/-- The extractor state after feeding `c7_chunk1` to a fresh extractor:
the three available zero-field bytes were dropped from the chunk but
`bread` was left at 0. -/
def c7_mid : rtf_object_data :=
  { name := false
    fd := -1
    pendingNibble := none
    internal_state := WAIT_ZERO
    desc_name := none
    desc_len := 2
    bread := 0
    fileBytes := [] }

/-- A concrete `DUMP_DATA` entry state: freshly created temp file (open
fd, path present), payload size 2, nothing classified yet. -/
def c3_d : rtf_object_data :=
  { name := true
    fd := 1
    pendingNibble := none
    internal_state := DUMP_DATA
    desc_name := none
    desc_len := 2
    bread := 0
    fileBytes := [] }

/-- The bytes of `\object1\x7b`: the control word `object` delimited by
the digit 1, then an opening brace ending the numeric parameter. -/
def c10_input : List Nat :=
  [92, 111, 98, 106, 101, 99, 116, 49, 123]

/-- The frame invariant behind the scope-gating claim: whenever any of
the extractor callbacks or the callback data is present on a frame, the
RTF_OBJECT bit of that frame's `encounteredTopLevel` is set (and the
bitset only ever holds the values 0 and 1). -/
def InvSt (f : rtf_state) : Prop :=
  (f.encounteredTopLevel = 0 ∨ f.encounteredTopLevel = 1) ∧
  ((f.cb_begin = true ∨ f.cb_process = true ∨ f.cb_end = true ∨
      f.cb_data.isSome = true) →
    f.encounteredTopLevel &&& (1 <<< RTF_OBJECT) = 1)

/-- The global invariant of the driver: the frame invariant on the
active frame and every stored frame, the `elements` counter law
(`elements = pushes - pops` modulo `2 ^ 64`), and the warned-once law. -/
def ScanInv (c : ScanConfig) : Prop :=
  InvSt c.st ∧ (∀ f ∈ c.frames, InvSt f) ∧
  c.elements = (c.pushes + (UINT64_MOD - 1) * c.pops) % UINT64_MOD ∧
  c.warnCount ≤ 1 ∧ (c.warned = true ↔ c.warnCount = 1)

lemma hextable_lt_16 (b : Nat) : hextable b < 16 := by
  unfold hextable
  split
  · omega
  · split
    · omega
    · split <;> omega

lemma shift_or_16 : ∀ x < 16, ∀ y < 16, (x <<< 4) ||| y = x * 16 + y := by
  decide

lemma hex_decode_go_append (a : List Nat) :
    ∀ (p : Option Nat) (b : List Nat),
      hex_decode_go p (a ++ b) =
        ((hex_decode_go p a).1 ++ (hex_decode_go (hex_decode_go p a).2 b).1,
         (hex_decode_go (hex_decode_go p a).2 b).2) := by
  induction a with
  | nil => intro p b; simp [hex_decode_go]
  | cons c rest ih =>
    intro p b
    by_cases h : c_isxdigit c
    · cases p with
      | none =>
        simp only [List.cons_append, hex_decode_go, h, if_true]
        exact ih _ b
      | some hi =>
        simp only [List.cons_append, hex_decode_go, h, if_true,
          List.append_eq]
        rw [ih none b]
    · simp only [List.cons_append, hex_decode_go, h, if_false]
      exact ih p b

lemma decode_chunks_eq_join (chs : List (List Nat)) :
    ∀ p : Option Nat, decode_chunks p chs = (hex_decode_go p chs.flatten).1 := by
  induction chs with
  | nil => intro p; simp [decode_chunks, List.flatten, hex_decode_go]
  | cons ch rest ih =>
    intro p
    simp only [decode_chunks, List.flatten_cons, hex_decode_go_append, ih]

lemma hex_decode_go_filter (l : List Nat) :
    ∀ p : Option Nat,
      (hex_decode_go p l).1 =
        (match p with
         | none => pair_nibbles (List.filter (fun b => c_isxdigit b) l)
         | some hi =>
           match List.filter (fun b => c_isxdigit b) l with
           | [] => []
           | c :: r => (hi ||| hextable c) :: pair_nibbles r) := by
  induction l with
  | nil => intro p; cases p <;> simp [hex_decode_go, pair_nibbles]
  | cons c rest ih =>
    intro p
    by_cases h : c_isxdigit c
    · cases p with
      | none =>
        simp only [hex_decode_go, h, if_true, List.filter_cons, ih]
        cases hf : List.filter (fun b => c_isxdigit b) rest with
        | nil => simp [hf, pair_nibbles]
        | cons c2 r =>
          simp only [hf, if_true, pair_nibbles]
          rw [shift_or_16 (hextable c) (hextable_lt_16 c) (hextable c2)
            (hextable_lt_16 c2)]
      | some hi =>
        simp only [hex_decode_go, h, if_true, List.filter_cons, ih none]
    · cases p with
      | none =>
        simp only [hex_decode_go, h, if_false, List.filter_cons,
          Bool.false_eq_true, if_false]
        exact ih none
      | some hi =>
        simp only [hex_decode_go, h, if_false, List.filter_cons,
          Bool.false_eq_true, if_false]
        exact ih (some hi)

/-- C5: for every byte sequence and every way of splitting it into
chunks delivered to successive hex-decode calls (the decoder of
`rtf_object_process`, with the carried nibble threaded between calls
exactly as `partial`/`has_partial` carry it), the decoded byte stream
equals the result of deleting all non-hex characters from the
concatenated input and pairing the remaining hex digits high-nibble
first; in particular the chunk split points do not change the decoded
output. -/
theorem c5_theorem (chunks : List (List Nat)) :
    decode_chunks none chunks =
      pair_nibbles (List.filter (fun b => c_isxdigit b) chunks.flatten) := by
  rw [decode_chunks_eq_join, hex_decode_go_filter]

/-- C2 counterexample: a dumped object whose scan returns a threat
verdict (`CL_VIRUS`) followed by a failing unlink with keep-temp-files
unset.  `decode_and_scan` returns `CL_EUNLINK`, not the scanner's
verdict: the generic scanner was invoked and returned `CL_VIRUS`
(second and third conjuncts), yet the result code is `CL_EUNLINK`
(first conjunct), so the unlink failure masks the threat verdict,
refuting the claim. -/
theorem c2_counterexample :
    (decode_and_scan
        { keeptmp := false, unlinkFails := true,
          scanOle10 := fun _ => CL_VIRUS, scanGeneric := fun _ => CL_VIRUS }
        { rtf_object_begin_data with name := true, fd := 1, bread := 2 }).1 =
      CL_EUNLINK ∧
    (decode_and_scan
        { keeptmp := false, unlinkFails := true,
          scanOle10 := fun _ => CL_VIRUS, scanGeneric := fun _ => CL_VIRUS }
        { rtf_object_begin_data with name := true, fd := 1, bread := 2 }).2.2 =
      [ScanEvent.generic []] ∧
    (fun _ => CL_VIRUS : List Nat → cl_error) [] = CL_VIRUS ∧
    CL_EUNLINK ≠ CL_VIRUS := by
  refine ⟨rfl, rfl, rfl, by decide⟩

/-- C2 (amended): when the temp-file unlink fails with the
keep-temp-files flag unset and a temp-file path is present,
`decode_and_scan` returns `CL_EUNLINK` regardless of the downstream
scanner's verdict — the `EUNLINK` condition replaces (masks) any
non-clean verdict in the returned result code. -/
theorem c2_theorem (env : ScanEnv) (d : rtf_object_data)
    (hname : d.name = true)
    (hkeep : env.keeptmp = false)
    (hul : env.unlinkFails = true) :
    (decode_and_scan env d).1 = CL_EUNLINK := by
  unfold decode_and_scan
  simp [hname, hkeep, hul]

/-- C2 witness: the amended theorem evaluated at a concrete object and
environment (clean scanners, failing unlink). -/
theorem c2_witness :
    ({ rtf_object_begin_data with name := true, fd := 1 } : rtf_object_data).name
        = true ∧
    (({ env0 with unlinkFails := true } : ScanEnv).keeptmp = false ∧
      ({ env0 with unlinkFails := true } : ScanEnv).unlinkFails = true) ∧
    (decode_and_scan { env0 with unlinkFails := true }
        { rtf_object_begin_data with name := true, fd := 1 }).1 = CL_EUNLINK :=
  ⟨rfl, ⟨rfl, rfl⟩,
   c2_theorem { env0 with unlinkFails := true }
     { rtf_object_begin_data with name := true, fd := 1 } rfl rfl rfl⟩

/-- C1 counterexample: on the end-to-end input of the claim, written
exactly as the spec writes it (`\object` delimited by a space),
`cli_scanrtf` invokes no downstream scanner at all — no object is
extracted and no bytes are written, because the lexer's lookup key for
the first control word is "object " including the trailing space while
the action table's entry is "object", so the `RTF_OBJECT` bit is never
set and `\objdata` binds no callbacks.  The scan completes clean. -/
theorem c1_counterexample :
    (cli_scanrtf_run env0 [c1_inputA] 200).events = [] ∧
    (cli_scanrtf_run env0 [c1_inputA] 200).outcome = ScanOutcome.done CL_CLEAN := by
  decide

/-- C1 (amended): for the same document with `\object` delimited by the
backslash of `\objdata` (the only change the counterexample forces),
`cli_scanrtf` extracts exactly one embedded object, classifies it as
OLE2, writes exactly the two bytes D0 CF to the temp file, and invokes
the generic-file scanner on that file: the event trace is exactly one
generic-scanner invocation whose file contents are [0xD0, 0xCF], and
the scan completes clean. -/
theorem c1_theorem :
    (cli_scanrtf_run env0 [c1_inputB] 200).events =
      [ScanEvent.generic [208, 207]] ∧
    (cli_scanrtf_run env0 [c1_inputB] 200).outcome = ScanOutcome.done CL_CLEAN := by
  decide

/-- C6: the code, evaluated at the failing input (description length 70,
the complete description, zero field, data size and payload all present
in one chunk).  The claim (and the spec's stated intent) requires the
excess 6 description bytes to be discarded and the machine to advance to
`WAIT_ZERO`; instead the extractor ends the call still in `WAIT_DESC`
with `bread = 64` and `desc_len` mutated to 68, having consumed the
entire chunk without ever advancing `out_data` past the first 64
description bytes; no object is ever dumped or scanned (no events, no
temp file). -/
theorem c6_theorem :
    rtf_object_process env0 rtf_object_begin_data c6_input =
      some (CL_CLEAN,
        { name := false
          fd := -1
          pendingNibble := none
          internal_state := WAIT_DESC
          desc_name := some (List.replicate 64 65)
          desc_len := 68
          bread := 64
          fileBytes := [] }, []) := by
  decide

/-- C7: the code, evaluated at the failing input (the 8-byte zero field
split 3 + 5 across two chunks).  The claim requires `bytes_read` to
advance by 3 on the first call and the zero field to consume exactly 8
bytes in total, after which the data size 2 and payload 41 42 would be
dumped and scanned.  Instead: the first call drops the 3 available bytes
with `bread` left at 0 (first conjunct, `c7_mid.bread = 0`), and the
second call discards 8 fresh bytes (11 in total), consuming the zero
field remainder, the data-size field and one payload byte, ending in
`WAIT_DATA_SIZE` with a corrupt partial size and no scanner invocation. -/
theorem c7_theorem :
    rtf_object_process env0 rtf_object_begin_data c7_chunk1 =
      some (CL_CLEAN, c7_mid, []) ∧
    c7_mid.bread = 0 ∧
    rtf_object_process env0 c7_mid c7_chunk2 =
      some (CL_CLEAN,
        { name := false
          fd := -1
          pendingNibble := none
          internal_state := WAIT_DATA_SIZE
          desc_name := none
          desc_len := 4342016
          bread := 3
          fileBytes := [] }, []) := by
  refine ⟨by decide, rfl, by decide⟩

/-- C9 counterexample: for the one-byte input consisting of a single
closing brace, the number of logical pops at end of input is 1 while the
number of logical pushes is 0 (so they are not equal), and the
`size_t` counter `stack->elements` is decremented unconditionally,
wrapping from 0 to `2 ^ 64 - 1` — it is not capped at 0.  The empty-pop
warning is logged exactly once and the parser continues (and finishes)
from the default frame. -/
theorem c9_counterexample :
    (cli_scanrtf_run env0 [[125]] 5).pushes = 0 ∧
    (cli_scanrtf_run env0 [[125]] 5).pops = 1 ∧
    (cli_scanrtf_run env0 [[125]] 5).elements = 18446744073709551615 ∧
    (cli_scanrtf_run env0 [[125]] 5).warnCount = 1 ∧
    (cli_scanrtf_run env0 [[125]] 5).st = base_state ∧
    (cli_scanrtf_run env0 [[125]] 5).outcome = ScanOutcome.done CL_CLEAN := by
  decide

/-- C10 counterexample: in `c10_input` the control word `object` is
delimited by the digit 1 (byte value 49) — a delimiter the claim says
never sets the bit — yet after the numeric parameter ends at the brace,
the interpretation key is exactly "object" and the `RTF_OBJECT` bit is
set in the active frame. -/
theorem c10_counterexample :
    (cli_scanrtf_run env0 [c10_input] 30).st.encounteredTopLevel &&&
        (1 <<< RTF_OBJECT) = 1 ∧
    c10_input.getD 7 0 = 49 ∧ c_isdigit 49 = true := by
  decide

/-- C4 counterexample: the input `\x7b\object\x7d\objdata 4` closes its
only group before `\objdata` appears.  After 13 driver steps (the closed
group `\x7b\object\x7d` fully processed) there is no open group of any
kind: no stored frame, no compressed default frame, `elements = 0` and
pushes = pops = 1 — so the later `\objdata` has no `\object` ancestor.
Yet after 25 steps (the `\objdata ` control word interpreted and the
first data byte seen) the extractor callback triple is bound on the
active frame and extractor callback data has been created, refuting the
claim's consequence: the `RTF_OBJECT` bit survived the pop of the
compressed default frame. -/
theorem c4_counterexample :
    ((cli_scanrtf_run env0 [c4_input] 13).frames = [] ∧
     (cli_scanrtf_run env0 [c4_input] 13).st.default_elements = 0 ∧
     (cli_scanrtf_run env0 [c4_input] 13).elements = 0 ∧
     (cli_scanrtf_run env0 [c4_input] 13).pushes = 1 ∧
     (cli_scanrtf_run env0 [c4_input] 13).pops = 1) ∧
    ((cli_scanrtf_run env0 [c4_input] 25).st.cb_begin = true ∧
     (cli_scanrtf_run env0 [c4_input] 25).st.cb_process = true ∧
     (cli_scanrtf_run env0 [c4_input] 25).st.cb_end = true ∧
     (cli_scanrtf_run env0 [c4_input] 25).st.cb_data.isSome = true) := by
  decide

lemma or_bit0 : (0 : Nat) ||| (1 <<< RTF_OBJECT) = 1 := by decide

lemma or_bit1 : (1 : Nat) ||| (1 <<< RTF_OBJECT) = 1 := by decide

lemma and_bit1 : (1 : Nat) &&& (1 <<< RTF_OBJECT) = 1 := by decide

lemma invSt_base : InvSt base_state := by
  refine ⟨Or.inl rfl, fun hor => ?_⟩
  rcases hor with h | h | h | h <;> simp [base_state] at h

lemma invSt_base_tl (t d : Nat) (ht : t = 0 ∨ t = 1) :
    InvSt { base_state with encounteredTopLevel := t, default_elements := d } := by
  refine ⟨ht, fun hor => ?_⟩
  rcases hor with h | h | h | h <;> simp [base_state] at h

lemma invSt_cb_data_none (f : rtf_state) (h : InvSt f) :
    InvSt { f with cb_data := none } := by
  obtain ⟨h1, h2⟩ := h
  refine ⟨h1, fun hor => h2 ?_⟩
  rcases hor with h | h | h | h
  · exact Or.inl h
  · exact Or.inr (Or.inl h)
  · exact Or.inr (Or.inr (Or.inl h))
  · simp at h

lemma invSt_clear (f : rtf_state) (h : InvSt f) :
    InvSt { f with cb_begin := false, cb_end := false, cb_data := none } := by
  obtain ⟨h1, h2⟩ := h
  refine ⟨h1, fun hor => h2 ?_⟩
  rcases hor with h | h | h | h
  · simp at h
  · exact Or.inr (Or.inl h)
  · simp at h
  · simp at h

lemma invSt_end (env : ScanEnv) (f : rtf_state) (h : InvSt f) :
    InvSt (rtf_object_end env f).2.1 := by
  unfold rtf_object_end
  cases hd : f.cb_data with
  | none => exact h
  | some d =>
    by_cases hfd : d.fd > 0
    · simp only [hfd, if_true]
      exact invSt_cb_data_none f h
    · simp only [hfd, if_false]
      exact invSt_cb_data_none f h

lemma invSt_end_tl (env : ScanEnv) (f : rtf_state) :
    (rtf_object_end env f).2.1.encounteredTopLevel = f.encounteredTopLevel := by
  unfold rtf_object_end
  cases hd : f.cb_data with
  | none => rfl
  | some d =>
    by_cases hfd : d.fd > 0
    · simp [hfd]
    · simp [hfd]

lemma invSt_action (f : rtf_state) (act : Nat) (h : InvSt f) :
    InvSt (rtf_action f act) := by
  obtain ⟨h1, h2⟩ := h
  unfold rtf_action
  split
  · refine ⟨Or.inr ?_, fun _ => ?_⟩
    · show f.encounteredTopLevel ||| (1 <<< RTF_OBJECT) = 1
      rcases h1 with h1 | h1 <;> rw [h1]
      · exact or_bit0
      · exact or_bit1
    · show (f.encounteredTopLevel ||| (1 <<< RTF_OBJECT)) &&& (1 <<< RTF_OBJECT) = 1
      rcases h1 with h1 | h1 <;> rw [h1]
      · rw [or_bit0]; exact and_bit1
      · rw [or_bit1]; exact and_bit1
  · split
    · split
      · rename_i hguard
        refine ⟨h1, fun _ => ?_⟩
        show f.encounteredTopLevel &&& (1 <<< RTF_OBJECT) = 1
        rcases h1 with h1 | h1
        · exfalso
          apply hguard
          rw [h1]
          decide
        · rw [h1]; exact and_bit1
      · exact ⟨h1, h2⟩
    · exact ⟨h1, h2⟩

lemma scanInv_push (c : ScanConfig) (h : ScanInv c) : ScanInv (push_state c) := by
  obtain ⟨h1, h2, h3, h4, h5⟩ := h
  simp only [push_state]
  split
  · refine ⟨h1, h2, ?_, h4, h5⟩
    show (c.elements + 1) % UINT64_MOD =
      (c.pushes + 1 + (UINT64_MOD - 1) * c.pops) % UINT64_MOD
    rw [h3]
    simp only [UINT64_MOD]
    omega
  · refine ⟨invSt_base_tl _ _ h1.1, ?_, ?_, h4, h5⟩
    · intro f hf
      simp only [List.mem_cons] at hf
      rcases hf with rfl | hf
      · exact h1
      · exact h2 f hf
    · show (c.elements + 1) % UINT64_MOD =
        (c.pushes + 1 + (UINT64_MOD - 1) * c.pops) % UINT64_MOD
      rw [h3]
      simp only [UINT64_MOD]
      omega

lemma scanInv_pop (c : ScanConfig) (h : ScanInv c) : ScanInv (pop_state c) := by
  obtain ⟨h1, h2, h3, h4, h5⟩ := h
  have hel : (c.elements + (UINT64_MOD - 1)) % UINT64_MOD =
      (c.pushes + (UINT64_MOD - 1) * (c.pops + 1)) % UINT64_MOD := by
    rw [h3]
    simp only [UINT64_MOD]
    omega
  simp only [pop_state]
  split
  · exact ⟨invSt_base_tl _ _ h1.1, h2, hel, h4, h5⟩
  · split
    · -- empty stack: maybe warn, reset to base
      split
      · -- not yet warned: warnCount goes 0 -> 1
        rename_i hfr hnw
        have hwf : c.warned = false := by
          cases hcw : c.warned
          · rfl
          · exact absurd hcw hnw
        have hw0 : c.warnCount = 0 := by
          have hne1 : c.warnCount ≠ 1 := by
            intro hc
            have hwt := h5.mpr hc
            rw [hwf] at hwt
            exact Bool.noConfusion hwt
          omega
        refine ⟨invSt_base, ?_, hel, ?_, ?_⟩
        · intro f hf
          exact h2 f hf
        · show c.warnCount + 1 ≤ 1
          omega
        · show true = true ↔ c.warnCount + 1 = 1
          simp [hw0]
      · rename_i hfr hnw
        refine ⟨invSt_base, ?_, hel, h4, h5⟩
        intro f hf
        exact h2 f hf
    · -- stored frame restored
      rename_i f rest hfr
      refine ⟨?_, ?_, hel, h4, h5⟩
      · exact h2 f (by rw [hfr]; exact List.mem_cons_self f rest)
      · intro g hg
        exact h2 g (by rw [hfr]; exact List.mem_cons_of_mem f hg)

lemma scanInv_cleanup_iter (env : ScanEnv) (c : ScanConfig) (h : ScanInv c) :
    ScanInv (cleanup_iter env c) := by
  have hp := scanInv_pop c h
  simp only [cleanup_iter]
  split
  · exact ⟨invSt_end env _ hp.1, hp.2.1, hp.2.2.1, hp.2.2.2.1, hp.2.2.2.2⟩
  · exact hp

lemma scanInv_cleanup_go (env : ScanEnv) (fuel : Nat) :
    ∀ c, ScanInv c → ScanInv (cleanup_go env fuel c) := by
  induction fuel with
  | zero => intro c h; exact h
  | succ n ih =>
    intro c h
    simp only [cleanup_go]
    split
    · exact h
    · exact ih _ (scanInv_cleanup_iter env c h)

lemma scanInv_finish (env : ScanEnv) (rc : cl_error) (c : ScanConfig)
    (h : ScanInv c) : ScanInv (scan_finish env rc c) := by
  simp only [scan_finish, cleanup_stack]
  split
  · exact scanInv_cleanup_go env _ _
      ⟨invSt_end env _ h.1, h.2.1, h.2.2.1, h.2.2.2.1, h.2.2.2.2⟩
  · exact scanInv_cleanup_go env _ _ h

lemma scanInv_step_main (env : ScanEnv) (c : ScanConfig) (b : Nat)
    (bs : List Nat) (h : ScanInv c) : ScanInv (step_main env c b bs) := by
  obtain ⟨h1, h2, h3, h4, h5⟩ := h
  simp only [step_main]
  split
  · exact scanInv_push _ ⟨h1, h2, h3, h4, h5⟩
  · split
    · split
      · -- closing brace with bound end callback
        have hc1 : ScanInv
            { c with
              cur := bs
              st := (rtf_object_end env c.st).2.1
              events := c.events ++ (rtf_object_end env c.st).2.2 } :=
          ⟨invSt_end env _ h1, h2, h3, h4, h5⟩
        split
        · exact scanInv_pop _ hc1
        · exact scanInv_finish env _ _ hc1
      · exact scanInv_pop _ ⟨h1, h2, h3, h4, h5⟩
    · split
      · exact ⟨h1, h2, h3, h4, h5⟩
      · split
        · -- process-callback branch: cb_begin is bound
          rename_i hbegin
          have hbit : ∀ d0 : Option rtf_object_data,
              InvSt { c.st with cb_data := d0 } :=
            fun d0 => ⟨h1.1, fun _ => h1.2 (Or.inl hbegin)⟩
          split
          · exact ⟨hbit _, h2, h3, h4, h5⟩
          · rename_i rc d1 evs heq
            split
            · exact ⟨hbit _, h2, h3, h4, h5⟩
            · have hc1 : ScanInv
                  { c with
                    st := { c.st with cb_data := some d1 }
                    events := c.events ++ evs } :=
                ⟨hbit _, h2, h3, h4, h5⟩
              split
              · exact scanInv_finish env _ _
                  ⟨invSt_end env _ hc1.1, h2, h3, h4, h5⟩
              · exact scanInv_finish env _ _ hc1
        · exact ⟨h1, h2, h3, h4, h5⟩

lemma scanInv_step_interpret (env : ScanEnv) (c : ScanConfig)
    (h : ScanInv c) : ScanInv (step_interpret env c) := by
  obtain ⟨h1, h2, h3, h4, h5⟩ := h
  simp only [step_interpret]
  split
  · split
    · exact ⟨invSt_action _ _ (invSt_clear _ (invSt_end env _ h1)),
        h2, h3, h4, h5⟩
    · exact ⟨invSt_action _ _ h1, h2, h3, h4, h5⟩
  · exact ⟨h1, h2, h3, h4, h5⟩

lemma scanInv_step (env : ScanEnv) (c : ScanConfig) (h : ScanInv c) :
    ScanInv (cli_scanrtf_step env c) := by
  obtain ⟨h1, h2, h3, h4, h5⟩ := h
  unfold cli_scanrtf_step
  split
  · exact ⟨h1, h2, h3, h4, h5⟩
  · exact ⟨h1, h2, h3, h4, h5⟩
  · split
    · split
      · exact scanInv_finish env _ _ ⟨h1, h2, h3, h4, h5⟩
      · split
        · exact scanInv_finish env _ _ ⟨h1, h2, h3, h4, h5⟩
        · exact ⟨h1, h2, h3, h4, h5⟩
    · split
      · exact scanInv_step_main env _ _ _ ⟨h1, h2, h3, h4, h5⟩
      · simp only [step_control]
        split
        · exact ⟨h1, h2, h3, h4, h5⟩
        · exact ⟨h1, h2, h3, h4, h5⟩
      · exact ⟨h1, h2, h3, h4, h5⟩
      · simp only [step_control_word]
        split
        · exact ⟨h1, h2, h3, h4, h5⟩
        · split
          · exact ⟨h1, h2, h3, h4, h5⟩
          · split
            · exact ⟨h1, h2, h3, h4, h5⟩
            · split
              · exact ⟨h1, h2, h3, h4, h5⟩
              · split
                · exact ⟨h1, h2, h3, h4, h5⟩
                · exact ⟨h1, h2, h3, h4, h5⟩
      · simp only [step_control_word_param]
        split
        · split
          · exact ⟨h1, h2, h3, h4, h5⟩
          · exact ⟨h1, h2, h3, h4, h5⟩
        · split
          · exact ⟨h1, h2, h3, h4, h5⟩
          · exact ⟨h1, h2, h3, h4, h5⟩
      · exact scanInv_step_interpret env _ ⟨h1, h2, h3, h4, h5⟩

lemma scanInv_init (chunks : List (List Nat)) :
    ScanInv (cli_scanrtf_init chunks) := by
  refine ⟨invSt_base, ?_, ?_, ?_, ?_⟩
  · intro f hf
    simp [cli_scanrtf_init] at hf
  · show (0 : Nat) = (0 + (UINT64_MOD - 1) * 0) % UINT64_MOD
    simp [UINT64_MOD]
  · show (0 : Nat) ≤ 1
    omega
  · show false = true ↔ (0 : Nat) = 1
    simp

lemma scanInv_run (env : ScanEnv) (chunks : List (List Nat)) (n : Nat) :
    ScanInv (cli_scanrtf_run env chunks n) := by
  induction n with
  | zero => exact scanInv_init chunks
  | succ m ih =>
    unfold cli_scanrtf_run at ih ⊢
    rw [Function.iterate_succ_apply']
    exact scanInv_step env _ ih

/-- C4 (amended): for every input byte stream (under every chunking) and
every reachable parser configuration, the extractor callback triple is
bound on the active frame — and extractor callback data exists — only if
the `RTF_OBJECT` bit is set in that frame's `encounteredTopLevel`; the
same holds for every stored stack frame (the bit is inherited across
push and pop).  The original claim's consequence — that a `\objdata`
with no `\object` ancestor never installs the callbacks — does not
follow and is false (see the counterexample): the pop of a compressed
default frame preserves the just-closed group's `encounteredTopLevel`,
so the bit survives the closing of an `\object` group, and a later
`\objdata` with no open `\object` ancestor does bind the callbacks.
What holds is the gating on the bit itself, stated here. -/
theorem c4_theorem (env : ScanEnv) (chunks : List (List Nat)) (n : Nat) :
    (((cli_scanrtf_run env chunks n).st.cb_begin = true ∨
      (cli_scanrtf_run env chunks n).st.cb_process = true ∨
      (cli_scanrtf_run env chunks n).st.cb_end = true ∨
      (cli_scanrtf_run env chunks n).st.cb_data.isSome = true) →
     (cli_scanrtf_run env chunks n).st.encounteredTopLevel &&&
       (1 <<< RTF_OBJECT) = 1) ∧
    ∀ f ∈ (cli_scanrtf_run env chunks n).frames,
      (f.cb_begin = true ∨ f.cb_process = true ∨ f.cb_end = true ∨
        f.cb_data.isSome = true) →
      f.encounteredTopLevel &&& (1 <<< RTF_OBJECT) = 1 := by
  have h := scanInv_run env chunks n
  exact ⟨h.1.2, fun f hf => (h.2.1 f hf).2⟩

/-- C4 witness: after 25 steps on `\x7b\object\x7d\objdata 4` the
extractor is bound, and the theorem yields that the RTF_OBJECT bit is
set on that frame. -/
theorem c4_witness :
    (cli_scanrtf_run env0 [c4_input] 25).st.cb_begin = true ∧
    (cli_scanrtf_run env0 [c4_input] 25).st.encounteredTopLevel &&&
      (1 <<< RTF_OBJECT) = 1 :=
  ⟨by decide, (c4_theorem env0 [c4_input] 25).1 (Or.inl (by decide))⟩

/-- C9 (amended): (first part) for every input, every chunking and every
number of driver steps, the `elements` counter equals the number of
logical pushes minus the number of logical pops modulo `2 ^ 64` — so at
end of input pops equal pushes exactly when the input's braces balance —
and the empty-pop warning has been logged at most once.  (second part)
a pop with no group open (no compressed defaults, no stored frames) pops
no stored frame, continues from the default frame and logs the warning
only if it was not logged before; but the `elements` counter is
decremented unconditionally, modulo `2 ^ 64` — it is not capped at 0
(see the counterexample, where it wraps to `2 ^ 64 - 1`). -/
theorem c9_theorem :
    (∀ (env : ScanEnv) (chunks : List (List Nat)) (n : Nat),
      (cli_scanrtf_run env chunks n).elements =
        ((cli_scanrtf_run env chunks n).pushes +
          (UINT64_MOD - 1) * (cli_scanrtf_run env chunks n).pops) %
          UINT64_MOD ∧
      (cli_scanrtf_run env chunks n).warnCount ≤ 1) ∧
    (∀ c : ScanConfig, c.st.default_elements = 0 → c.frames = [] →
      (pop_state c).st = base_state ∧
      (pop_state c).frames = [] ∧
      (pop_state c).pops = c.pops + 1 ∧
      (pop_state c).elements = (c.elements + (UINT64_MOD - 1)) % UINT64_MOD ∧
      (pop_state c).warnCount =
        (if c.warned = true then c.warnCount else c.warnCount + 1)) := by
  constructor
  · intro env chunks n
    have h := scanInv_run env chunks n
    exact ⟨h.2.2.1, h.2.2.2.1⟩
  · intro c hde hfr
    obtain ⟨cur, chks, st, frames, el, w, wc, pu, po, evs, oc⟩ := c
    simp only at hde hfr
    subst hfr
    simp only [pop_state, hde, ne_eq, not_true_eq_false, if_false,
      reduceCtorEq]
    cases w <;> simp

/-- C9 witness: the pop characterisation applied to the initial
configuration (no group open). -/
theorem c9_witness :
    ((cli_scanrtf_init []).st.default_elements = 0 ∧
     (cli_scanrtf_init []).frames = []) ∧
    ((pop_state (cli_scanrtf_init [])).st = base_state ∧
     (pop_state (cli_scanrtf_init [])).frames = [] ∧
     (pop_state (cli_scanrtf_init [])).pops = (cli_scanrtf_init []).pops + 1 ∧
     (pop_state (cli_scanrtf_init [])).elements =
       ((cli_scanrtf_init []).elements + (UINT64_MOD - 1)) % UINT64_MOD ∧
     (pop_state (cli_scanrtf_init [])).warnCount =
       (if (cli_scanrtf_init []).warned = true then
          (cli_scanrtf_init []).warnCount
        else (cli_scanrtf_init []).warnCount + 1)) :=
  ⟨⟨rfl, rfl⟩, c9_theorem.2 (cli_scanrtf_init []) rfl rfl⟩

/-- C8: in `PARSE_CONTROL_WORD_PARAM`, on a decimal digit, the
accumulation `controlword_param * 10 + digit` is performed exactly when
the result fits in a signed 64-bit integer (stays `≤ INT64_MAX`; with a
non-negative accumulator it also stays non-negative, so no
signed-integer overflow occurs); a digit whose inclusion would exceed
`INT64_MAX` returns the parser to `PARSE_MAIN` leaving everything else —
in particular the input position (the digit is not consumed), the
accumulator, the group stack and the `elements` counter — unchanged. -/
theorem c8_theorem (env : ScanEnv) (c : ScanConfig) (b : Nat) (bs : List Nat)
    (hrun : c.outcome = ScanOutcome.running)
    (hcur : c.cur = b :: bs)
    (hps : c.st.parse_state = PARSE_CONTROL_WORD_PARAM)
    (hdig : c_isdigit b = true)
    (hnn : 0 ≤ c.st.controlword_param) :
    (c.st.controlword_param * 10 + ((b : Int) - 48) > INT64_MAX →
      cli_scanrtf_step env c =
        { c with st := { c.st with parse_state := PARSE_MAIN } }) ∧
    (c.st.controlword_param * 10 + ((b : Int) - 48) ≤ INT64_MAX →
      cli_scanrtf_step env c =
        { c with
          cur := bs
          st := { c.st with
                  controlword_param :=
                    c.st.controlword_param * 10 + ((b : Int) - 48) } } ∧
      0 ≤ c.st.controlword_param * 10 + ((b : Int) - 48)) := by
  obtain ⟨cur, chks, st, frames, el, w, wc, pu, po, evs, oc⟩ := c
  obtain ⟨cb, cp, ce, cd, de, param, ps, sign, tl, word⟩ := st
  simp only at hrun hcur hps hnn
  subst hrun hcur hps
  have hb : 48 ≤ b ∧ b ≤ 57 := by
    simp only [c_isdigit, Bool.and_eq_true, decide_eq_true_eq] at hdig
    exact hdig
  have hq : INT64_MAX / 10 = 922337203685477580 := by norm_num [INT64_MAX]
  constructor
  · intro hov
    have hguard : param > INT64_MAX / 10 ∨
        param * 10 > INT64_MAX - ((b : Int) - 48) := by
      right
      simp only [INT64_MAX] at hov ⊢
      omega
    simp only [cli_scanrtf_step, step_control_word_param, hdig, if_true]
    rw [if_pos hguard]
  · intro hfit
    have hnguard : ¬ (param > INT64_MAX / 10 ∨
        param * 10 > INT64_MAX - ((b : Int) - 48)) := by
      rw [hq]
      simp only [INT64_MAX] at hfit
      push_neg
      constructor
      · omega
      · simp only [INT64_MAX]
        omega
    refine ⟨?_, ?_⟩
    · simp only [cli_scanrtf_step, step_control_word_param, hdig, if_true]
      rw [if_neg hnguard]
    · simp only at hnn ⊢
      omega

/-- C8 witness: the theorem applied with the accumulator at `INT64_MAX`
and the digit 9, where the accumulation would overflow. -/
theorem c8_witness :
    (c_isdigit 57 = true ∧
     (0 : Int) ≤ INT64_MAX ∧
     INT64_MAX * 10 + ((57 : Int) - 48) > INT64_MAX) ∧
    cli_scanrtf_step env0
        { cli_scanrtf_init [] with
          cur := [57]
          st := { base_state with
                  parse_state := PARSE_CONTROL_WORD_PARAM
                  controlword_param := INT64_MAX
                  controlword_param_sign := 1 } } =
      { { cli_scanrtf_init [] with
          cur := [57]
          st := { base_state with
                  parse_state := PARSE_CONTROL_WORD_PARAM
                  controlword_param := INT64_MAX
                  controlword_param_sign := 1 } } with
        st := { { base_state with
                  parse_state := PARSE_CONTROL_WORD_PARAM
                  controlword_param := INT64_MAX
                  controlword_param_sign := 1 } with
                parse_state := PARSE_MAIN } } :=
  ⟨⟨rfl, by norm_num [INT64_MAX], by norm_num [INT64_MAX]⟩,
   (c8_theorem env0
      { cli_scanrtf_init [] with
        cur := [57]
        st := { base_state with
                parse_state := PARSE_CONTROL_WORD_PARAM
                controlword_param := INT64_MAX
                controlword_param_sign := 1 } }
      57 [] rfl rfl rfl rfl (by norm_num [INT64_MAX])).1
     (by norm_num [INT64_MAX])⟩

/-- C3: in state `DUMP_DATA`, on the first available decoded bytes of
the payload (`bread = 0`, open fd, at least 2 payload bytes present in
the decoded buffer, the whole payload of `desc_len` bytes delivered):
if the first two bytes are 0xD0 0xCF the payload is appended to the temp
file as-is and, when `desc_len` reaches 0, the generic-file scanner is
invoked on the fd (event `generic` with exactly the previous file
contents plus the payload); otherwise the 4-byte little-endian
`desc_len` is written to the temp file before any payload bytes and,
when `desc_len` reaches 0, the OLE10Native scanner is invoked on the fd
(event `ole10` with the length prefix preceding the payload). -/
theorem c3_theorem (env : ScanEnv) (d : rtf_object_data) (buf : List Nat)
    (pos : Nat) (ev : List ScanEvent) (fuel : Nat)
    (hst : d.internal_state = DUMP_DATA)
    (hbread : d.bread = 0)
    (hfd : d.fd = 1)
    (hlen : 2 ≤ d.desc_len)
    (hav : pos + d.desc_len ≤ buf.length) :
    ∃ r : cl_error × rtf_object_data × List ScanEvent,
      rtf_process_loop env (fuel + 2) d buf pos d.desc_len ev = some r ∧
      r.2.2 = ev ++
        [if buf_at buf pos = 0xd0 ∧ buf_at buf (pos + 1) = 0xcf then
           ScanEvent.generic (d.fileBytes ++ buf_slice buf pos d.desc_len)
         else
           ScanEvent.ole10 (d.fileBytes ++ (cli_writeint32 d.desc_len ++
             buf_slice buf pos d.desc_len))] := by
  obtain ⟨nm, fd, pn, ist, dn, dl, br, fb⟩ := d
  simp only at hst hbread hfd hlen hav
  subst hst hbread hfd
  have hne : ¬ dl = 0 := by omega
  show ∃ r, rtf_process_loop env ((fuel + 1) + 1) _ buf pos dl ev = some r ∧ _
  rw [rtf_process_loop]
  rw [if_neg hne]
  dsimp only
  by_cases hcl : buf_at buf pos = 0xd0 ∧ buf_at buf (pos + 1) = 0xcf
  · simp only [hcl.1, hcl.2, ne_eq, not_true_eq_false, or_self, if_false,
      min_self, Nat.sub_self, if_true, decode_and_scan]
    simp only [rtf_process_loop]
    norm_num
    repeat' split
    all_goals exact ⟨_, _, rfl⟩
  · rw [if_pos (not_and_or.mp hcl)]
    simp only [min_self, Nat.sub_self, decode_and_scan]
    simp only [rtf_process_loop]
    norm_num
    repeat' split
    all_goals simp only [hcl, if_false]
    all_goals exact ⟨_, _, rfl⟩

/-- C3 witness: the theorem applied at a concrete object whose two
payload bytes are D0 CF. -/
theorem c3_witness :
    (c3_d.internal_state = DUMP_DATA ∧ c3_d.bread = 0 ∧ c3_d.fd = 1 ∧
     2 ≤ c3_d.desc_len ∧ 0 + c3_d.desc_len ≤ [208, 207].length) ∧
    ∃ r : cl_error × rtf_object_data × List ScanEvent,
      rtf_process_loop env0 (0 + 2) c3_d [208, 207] 0 c3_d.desc_len []
        = some r ∧
      r.2.2 = [] ++
        [if buf_at [208, 207] 0 = 0xd0 ∧ buf_at [208, 207] (0 + 1) = 0xcf then
           ScanEvent.generic
             (c3_d.fileBytes ++ buf_slice [208, 207] 0 c3_d.desc_len)
         else
           ScanEvent.ole10 (c3_d.fileBytes ++ (cli_writeint32 c3_d.desc_len ++
             buf_slice [208, 207] 0 c3_d.desc_len))] :=
  ⟨⟨rfl, rfl, rfl, by decide, by decide⟩,
   c3_theorem env0 c3_d [208, 207] 0 [] 0 rfl rfl rfl (by decide) (by decide)⟩

lemma tableFind_object_append (w : Nat) :
    tableFind (object_key ++ [w]) = none := by
  simp [tableFind, object_key, objdata_key]

/-- C10 (amended): (i) appending any byte to the key "object" yields a
key matching no action-table entry, so in particular the lexer's lookup
key for `\object` terminated by a whitespace byte — "object" plus that
whitespace — finds no action; (ii) the whitespace delimiter is appended
to the key and the lexer moves to interpretation with that extended key;
(iii) interpreting such an extended key changes nothing but the parse
state — the RTF_OBJECT bit is not set and no callbacks are installed;
(iv) interpreting the bare key "object" (with no dangling extractor
data) sets the RTF_OBJECT bit; and (v) a digit delimiter enters the
numeric-parameter state without consuming the digit and with the key
still "object", which is why — contrary to the original claim — a digit
or `-` delimiter also leads to the bit being set once the parameter ends
(see the counterexample). -/
theorem c10_theorem (env : ScanEnv) :
    (∀ w : Nat, tableFind (object_key ++ [w]) = none) ∧
    (∀ (c : ScanConfig) (b : Nat) (bs : List Nat),
      c.outcome = ScanOutcome.running → c.cur = b :: bs →
      c.st.parse_state = PARSE_CONTROL_WORD →
      c.st.controlword = object_key → c_isspace b = true →
      cli_scanrtf_step env c =
        { c with
          cur := bs
          st := { c.st with
                  controlword := object_key ++ [b]
                  parse_state := PARSE_INTERPRET_CONTROLWORD } }) ∧
    (∀ (c : ScanConfig) (b w : Nat) (bs : List Nat),
      c.outcome = ScanOutcome.running → c.cur = b :: bs →
      c.st.parse_state = PARSE_INTERPRET_CONTROLWORD →
      c.st.controlword = object_key ++ [w] →
      cli_scanrtf_step env c =
        { c with st := { c.st with parse_state := PARSE_MAIN } }) ∧
    (∀ (c : ScanConfig) (b : Nat) (bs : List Nat),
      c.outcome = ScanOutcome.running → c.cur = b :: bs →
      c.st.parse_state = PARSE_INTERPRET_CONTROLWORD →
      c.st.controlword = object_key → c.st.cb_data = none →
      cli_scanrtf_step env c =
        { c with
          st := { c.st with
                  encounteredTopLevel :=
                    c.st.encounteredTopLevel ||| (1 <<< RTF_OBJECT)
                  parse_state := PARSE_MAIN } }) ∧
    (∀ (c : ScanConfig) (b : Nat) (bs : List Nat),
      c.outcome = ScanOutcome.running → c.cur = b :: bs →
      c.st.parse_state = PARSE_CONTROL_WORD →
      c.st.controlword = object_key → c_isdigit b = true →
      cli_scanrtf_step env c =
        { c with
          st := { c.st with
                  parse_state := PARSE_CONTROL_WORD_PARAM
                  controlword_param := 0
                  controlword_param_sign := 1 } }) := by
  refine ⟨tableFind_object_append, ?_, ?_, ?_, ?_⟩
  · intro c b bs hrun hcur hps hw hsp
    obtain ⟨cur, chks, st, frames, el, w, wc, pu, po, evs, oc⟩ := c
    obtain ⟨cb, cp, ce, cd, de, param, ps, sign, tl, word⟩ := st
    simp only at hrun hcur hps hw
    subst hrun hcur hps hw
    have hb : b = 32 ∨ (9 ≤ b ∧ b ≤ 13) := by
      simp only [c_isspace, Bool.or_eq_true, Bool.and_eq_true,
        decide_eq_true_eq] at hsp
      exact hsp
    have hna : c_isalpha b = false := by
      simp only [c_isalpha, Bool.or_eq_true, Bool.and_eq_true,
        decide_eq_true_eq, Bool.or_eq_false_iff, Bool.and_eq_false_iff]
      constructor <;> simp only [decide_eq_false_iff_not] <;> omega
    simp only [cli_scanrtf_step, step_control_word, hna, hsp,
      Bool.false_eq_true, if_false, if_true]
    rw [if_neg (by simp [object_key])]
  · intro c b w bs hrun hcur hps hw
    obtain ⟨cur, chks, st, frames, el, wrn, wc, pu, po, evs, oc⟩ := c
    obtain ⟨cb, cp, ce, cd, de, param, ps, sign, tl, word⟩ := st
    simp only at hrun hcur hps hw
    subst hrun hcur hps hw
    simp only [cli_scanrtf_step, step_interpret, tableFind_object_append]
  · intro c b bs hrun hcur hps hw hcd
    obtain ⟨cur, chks, st, frames, el, wrn, wc, pu, po, evs, oc⟩ := c
    obtain ⟨cb, cp, ce, cd, de, param, ps, sign, tl, word⟩ := st
    simp only at hrun hcur hps hw hcd
    subst hrun hcur hps hw hcd
    have hfind : tableFind object_key = some RTF_OBJECT := by
      simp [tableFind]
    simp only [cli_scanrtf_step, step_interpret, hfind, Option.isSome_none,
      Bool.false_eq_true, false_and, if_false, rtf_action, if_pos rfl]
    simp only [if_true]
  · intro c b bs hrun hcur hps hw hdg
    obtain ⟨cur, chks, st, frames, el, wrn, wc, pu, po, evs, oc⟩ := c
    obtain ⟨cb, cp, ce, cd, de, param, ps, sign, tl, word⟩ := st
    simp only at hrun hcur hps hw
    subst hrun hcur hps hw
    have hb : 48 ≤ b ∧ b ≤ 57 := by
      simp only [c_isdigit, Bool.and_eq_true, decide_eq_true_eq] at hdg
      exact hdg
    have hna : c_isalpha b = false := by
      simp only [c_isalpha, Bool.or_eq_false_iff, Bool.and_eq_false_iff]
      constructor <;> simp only [decide_eq_false_iff_not] <;> omega
    have hns : c_isspace b = false := by
      simp only [c_isspace, Bool.or_eq_false_iff, Bool.and_eq_false_iff]
      constructor
      · simp only [decide_eq_false_iff_not]; omega
      · right; simp only [decide_eq_false_iff_not]; omega
    simp only [cli_scanrtf_step, step_control_word, hna, hns, hdg,
      Bool.false_eq_true, if_false, if_true]
    rw [if_neg (by simp [object_key])]

/-- C10 witness: the whitespace case of the theorem applied at a
concrete configuration (key "object", next byte a space). -/
theorem c10_witness :
    c_isspace 32 = true ∧
    cli_scanrtf_step env0
        { cli_scanrtf_init [] with
          cur := [32, 125]
          st := { base_state with
                  parse_state := PARSE_CONTROL_WORD
                  controlword := object_key } } =
      { { cli_scanrtf_init [] with
          cur := [32, 125]
          st := { base_state with
                  parse_state := PARSE_CONTROL_WORD
                  controlword := object_key } } with
        cur := [125]
        st := { { base_state with
                  parse_state := PARSE_CONTROL_WORD
                  controlword := object_key } with
                controlword := object_key ++ [32]
                parse_state := PARSE_INTERPRET_CONTROLWORD } } :=
  ⟨rfl, (c10_theorem env0).2.1
    { cli_scanrtf_init [] with
      cur := [32, 125]
      st := { base_state with
              parse_state := PARSE_CONTROL_WORD
              controlword := object_key } }
    32 [125] rfl rfl rfl rfl rfl⟩
